import Mathlib

/-!
Shallow embedding of the mujoco-usd-converter repository: the conversion
core (model parser output, geometry deduplication, scene-graph building,
layer composition) and the CLI boundary, together with the benchmark
tool's `convert_model` routine from `src/tools/benchmark_menagerie.py`.

The conversion core and the CLI `run()` entry point are not part of the
visible sources (only their tests `src/tests/testCli.py` and
`src/tests/testMesh.py` are), so those parts are modelled from the
specification, with the tests pinning concrete strings, paths and exit
codes.  The benchmark tool is embedded directly from its source.
-/

/-! ## Mesh data and fingerprints

Positions, normals and UVs are carried as already-quantized integer
coordinates: the spec canonicalizes geometry by rounding positions to a
fixed precision before fingerprinting, so the embedding works with the
quantized values directly. -/

/-- A quantized 3d coordinate. -/
abbrev Vec3 := Int × Int × Int

/-- A quantized 2d (texture) coordinate. -/
abbrev Vec2 := Int × Int

/-- Modelled from the spec: a `MeshAsset` of the parsed model (§3): point
positions, face-vertex counts, face-vertex indices, optional normals and
optional UV coordinates each carrying its own separate index array, plus
provenance (the asset's name and the source file it was loaded from).
The concrete parser is not among the visible sources. -/
structure MeshAsset where
  meshName : String
  sourceFile : String
  points : List Vec3
  faceVertexCounts : List Nat
  faceVertexIndices : List Nat
  normals : Option (List Vec3 × List Nat)
  uvs : Option (List Vec2 × List Nat)
deriving DecidableEq

/-- The content fingerprint domain: canonicalized geometry data. -/
structure Fingerprint where
  points : List Vec3
  faceVertexCounts : List Nat
  faceVertexIndices : List Nat
  normals : Option (List Vec3 × List Nat)
  uvs : Option (List Vec2 × List Nat)
deriving DecidableEq

/-- Modelled from the spec: the deterministic content fingerprint over
canonicalized geometry data (§4.2).  Provenance (name, source file) is
deliberately excluded so that logically identical geometry from different
source files collapses to one library entry. -/
def MeshAsset.fingerprint (m : MeshAsset) : Fingerprint :=
  ⟨m.points, m.faceVertexCounts, m.faceVertexIndices, m.normals, m.uvs⟩

/-! ## Geoms and bodies -/

/-- Primitive shape kinds of the source format. -/
inductive ShapeKind where
  | box
  | sphere
  | capsule
  | cylinder
  | ellipsoid
  | plane
deriving DecidableEq

/-- The deterministic name associated with each primitive shape kind. -/
def ShapeKind.shapeName : ShapeKind → String
  | .box => "box"
  | .sphere => "sphere"
  | .capsule => "capsule"
  | .cylinder => "cylinder"
  | .ellipsoid => "ellipsoid"
  | .plane => "plane"

/-- Modelled from the spec: a geom is either a primitive shape (type plus
size parameters) or a reference to a `MeshAsset` (§3), a tagged variant
dispatched by exhaustive matching (§9). -/
inductive GeomShape where
  | primitive (kind : ShapeKind) (size : List Int)
  | mesh (asset : MeshAsset)
deriving DecidableEq

/-- A geom of the parsed model: an optional explicit name and a shape. -/
structure Geom where
  name : Option String
  shape : GeomShape
deriving DecidableEq

/-- The deterministic base name a shape contributes when its geom has no
explicit name: the shape-kind name for primitives, the referenced mesh
asset's name for mesh geoms. -/
def GeomShape.baseName : GeomShape → String
  | .primitive kind _ => kind.shapeName
  | .mesh asset => asset.meshName

/-- Modelled from the spec: the base name of a converted geom node — the
explicit geom name when present, otherwise a deterministic name derived
from the shape (§4.3). -/
def Geom.baseName (g : Geom) : String :=
  g.name.getD g.shape.baseName

mutual
/-- Modelled from the spec: the body tree (§3) — a strict tree where each
body has a name, a list of geoms and a list of child bodies.  The child
list is its own inductive so that all recursion stays structural. -/
inductive Body where
  | mk (name : String) (geoms : List Geom) (children : BodyList)
/-- A list of sibling bodies. -/
inductive BodyList where
  | nil
  | cons (b : Body) (bs : BodyList)
end

/-- The name of a body. -/
def Body.bodyName : Body → String
  | .mk n _ _ => n

/-- Modelled from the spec: global physics options of the model (gravity,
timestep, etc.), quantized to integers for the embedding (§3). -/
structure PhysicsOptions where
  gravity : Vec3
  timestep : Int
deriving DecidableEq

/-- Modelled from the spec: the root of the parsed tree — global physics
options and the root (world) body; `modelName` is the source file's base
name (§3, §6). -/
structure Model where
  modelName : String
  physics : PhysicsOptions
  worldBody : Body

/-- Modelled from the spec: conversion options with their defaults —
layer structure enabled, physics scene enabled, empty comment (§3). -/
structure ConversionOptions where
  layerStructure : Bool := true
  physicsScene : Bool := true
  comment : String := ""

/-! ## Deterministic naming of sibling nodes -/

/-- A converted node name: a base plus a numeric disambiguation suffix;
suffix `0` renders as the bare base name. -/
structure NodeName where
  base : String
  suffix : Nat
deriving DecidableEq

/-- Render a node name: the bare base for suffix `0`, otherwise the base
followed by the numeric suffix. -/
def NodeName.render (n : NodeName) : String :=
  if n.suffix = 0 then n.base else n.base ++ "_" ++ toString n.suffix

/-- Modelled from the spec: the name assigned to a geom given the earlier
siblings `prev` — its base name, disambiguated by a numeric suffix
counting the earlier siblings that share the base (§4.3). -/
def assignedName (prev : List Geom) (g : Geom) : NodeName :=
  ⟨g.baseName, prev.countP (fun p => p.baseName == g.baseName)⟩

/-- Assign names to the geoms of one body, threading the earlier
siblings. -/
def assignNamesFrom : List Geom → List Geom → List NodeName
  | _, [] => []
  | prev, g :: rest => assignedName prev g :: assignNamesFrom (prev ++ [g]) rest

/-- The names assigned to a body's geom children, in order. -/
def assignNames (gs : List Geom) : List NodeName :=
  assignNamesFrom [] gs

/-! ## Scene-graph traversal -/

mutual
/-- Collect, depth first, every geom of the body tree together with the
path of its per-instance node: the body's path extended by the geom's
assigned node name (§4.3). -/
def Body.collectGeoms : List String → Body → List (List String × Geom)
  | path, .mk _ gs cs =>
    (gs.zip (assignNames gs)).map (fun gn => (path ++ [gn.2.render], gn.1))
      ++ BodyList.collectChildGeoms path cs
/-- Collect the geoms of a list of child bodies, each child's path being
the parent path extended by the child body's name. -/
def BodyList.collectChildGeoms : List String → BodyList → List (List String × Geom)
  | _, .nil => []
  | path, .cons b bs =>
    Body.collectGeoms (path ++ [b.bodyName]) b ++ BodyList.collectChildGeoms path bs
end

/-- Keep only the geoms that resolve to mesh assets, with their node
paths. -/
def pathedMeshes (pgs : List (List String × Geom)) : List (List String × MeshAsset) :=
  pgs.filterMap (fun pg =>
    match pg.2.shape with
    | .mesh m => some (pg.1, m)
    | .primitive _ _ => none)

/-- Keep only the primitive-shape geoms, with their node paths. -/
def pathedPrimitives (pgs : List (List String × Geom)) :
    List (List String × ShapeKind × List Int) :=
  pgs.filterMap (fun pg =>
    match pg.2.shape with
    | .mesh _ => none
    | .primitive kind size => some (pg.1, kind, size))

/-- All geoms of a model with their converted node paths, rooted at
`/<model>/Geometry` as in the converted stage. -/
def Model.pathedGeoms (model : Model) : List (List String × Geom) :=
  Body.collectGeoms [model.modelName, "Geometry"] model.worldBody

/-- The model's mesh geoms with their node paths. -/
def Model.pathedMeshGeoms (model : Model) : List (List String × MeshAsset) :=
  pathedMeshes model.pathedGeoms

/-- The model's mesh assets in traversal order (with repetitions: one
occurrence per referencing geom). -/
def Model.meshAssets (model : Model) : List MeshAsset :=
  model.pathedMeshGeoms.map Prod.snd

/-! ## Authored mesh prims and the geometry library -/

/-- An indexed primvar: values plus its own index array, so shared
vertices are not expanded. -/
structure IndexedPrimvar (α : Type) where
  values : List α
  indices : List Nat
deriving DecidableEq

/-- An authored mesh prim of the geometry library.  `none` in a field
means the attribute has no authored value. -/
structure MeshPrim where
  points : Option (List Vec3)
  faceVertexCounts : Option (List Nat)
  faceVertexIndices : Option (List Nat)
  normalsAttr : Option (List Vec3)
  normalsPrimvar : Option (IndexedPrimvar Vec3)
  uvPrimvar : Option (IndexedPrimvar Vec2)
deriving DecidableEq

/-- Modelled from the spec: author a new geometry prim holding points,
face-vertex counts and face-vertex indices, plus indexed primvars for
normals and UV, each with its own index array; the plain (flattened)
normals attribute is left unauthored (§4.2). -/
def authorMeshPrim (m : MeshAsset) : MeshPrim where
  points := some m.points
  faceVertexCounts := some m.faceVertexCounts
  faceVertexIndices := some m.faceVertexIndices
  normalsAttr := none
  normalsPrimvar := m.normals.map (fun nv => ⟨nv.1, nv.2⟩)
  uvPrimvar := m.uvs.map (fun uv => ⟨uv.1, uv.2⟩)

/-- Modelled from the spec: the geometry deduplicator (§4.2).  Fold over
the mesh assets in traversal order; a mesh whose fingerprint already maps
to a library entry is skipped, otherwise a new entry is authored once. -/
def buildLibraryFrom (acc : List (Fingerprint × MeshPrim)) :
    List MeshAsset → List (Fingerprint × MeshPrim)
  | [] => acc
  | m :: rest =>
    if acc.any (fun e => decide (e.1 = m.fingerprint)) then
      buildLibraryFrom acc rest
    else
      buildLibraryFrom (acc ++ [(m.fingerprint, authorMeshPrim m)]) rest

/-- The deduplicated geometry library built from a list of mesh assets. -/
def buildLibrary (ms : List MeshAsset) : List (Fingerprint × MeshPrim) :=
  buildLibraryFrom [] ms

/-! ## Converted scene -/

/-- A per-instance geometry node: its path, its reference arcs into the
geometry library (targets identified by the content fingerprint of the
library entry), and any geometry data copied locally into the instance
(never authored by the converter). -/
structure InstancePrim where
  path : List String
  references : List Fingerprint
  localMesh : Option MeshPrim
deriving DecidableEq

/-- A primitive-shape node authored directly with its size parameters. -/
structure PrimitivePrim where
  path : List String
  kind : ShapeKind
  size : List Int
deriving DecidableEq

/-- The global physics-scene node carrying the model's global physics
settings. -/
structure PhysicsScenePrim where
  path : List String
  gravity : Vec3
  timestep : Int
deriving DecidableEq

/-- The role of one physical output layer. -/
inductive LayerRole where
  | root
  | payload
  | geomLibrary
deriving DecidableEq

/-- The file format of one physical output layer: readable text or
binary. -/
inductive LayerFormat where
  | usda
  | usdc
deriving DecidableEq

/-- One physical output layer: optional subdirectory, base file name,
format and role.  `subdir = none` places the file at the output root. -/
structure LayerFile where
  subdir : Option String
  baseName : String
  format : LayerFormat
  role : LayerRole
deriving DecidableEq

/-- Modelled from the spec: layer composition (§4.4, §6).  With layer
structure enabled the root layer is the readable `<model>.usda` plus a
subdirectory holding the payload and geometry-library layers; with it
disabled everything collapses into a single binary `<model>.usdc`. -/
def composeLayers (modelName : String) (opts : ConversionOptions) : List LayerFile :=
  if opts.layerStructure then
    [⟨none, modelName, .usda, .root⟩,
     ⟨some "Payload", modelName, .usdc, .payload⟩,
     ⟨some "Payload", modelName ++ "_Geometry", .usdc, .geomLibrary⟩]
  else
    [⟨none, modelName, .usdc, .root⟩]

/-- The converted asset: physical layers, the root layer's comment
metadata, the deduplicated geometry library, the per-instance mesh nodes,
the directly authored primitive nodes and the physics-scene nodes. -/
structure ConvertedAsset where
  layers : List LayerFile
  rootComment : String
  library : List (Fingerprint × MeshPrim)
  meshInstances : List InstancePrim
  primitivePrims : List PrimitivePrim
  physicsScenes : List PhysicsScenePrim
deriving DecidableEq

/-- Modelled from the spec: the orchestrating converter (§4.5) — parse
output to deduplicated library, scene graph and composed layers.  Mesh
geoms become per-instance nodes holding one reference arc to the library
entry of their fingerprint and no local copy of the geometry data;
primitive geoms are authored directly; the physics-scene node is authored
exactly once when enabled; the comment option is written verbatim as the
root layer's comment. -/
def Converter.convert (model : Model) (opts : ConversionOptions) : ConvertedAsset where
  layers := composeLayers model.modelName opts
  rootComment := opts.comment
  library := buildLibrary model.meshAssets
  meshInstances :=
    model.pathedMeshGeoms.map (fun pm => ⟨pm.1, [pm.2.fingerprint], none⟩)
  primitivePrims :=
    (pathedPrimitives model.pathedGeoms).map (fun pp => ⟨pp.1, pp.2.1, pp.2.2⟩)
  physicsScenes :=
    if opts.physicsScene then
      [⟨["PhysicsScene"], model.physics.gravity, model.physics.timestep⟩]
    else []

/-- The root layer of a converted asset, when present. -/
def ConvertedAsset.rootLayer (a : ConvertedAsset) : Option LayerFile :=
  a.layers.find? (fun l => decide (l.role = .root))

/-- Whether a valid physics-scene prim exists at the given path. -/
def ConvertedAsset.physicsSceneAt (a : ConvertedAsset) (p : List String) : Bool :=
  a.physicsScenes.any (fun s => decide (s.path = p))

/-! ## CLI boundary

The CLI wrapper (`run()`) is not among the visible sources; it is
modelled from the spec (§6, §7), with the concrete warning strings and
the exit-code mapping pinned by `src/tests/testCli.py`. -/

/-- What a path names in the filesystem. -/
inductive PathKind where
  | file
  | directory
  | missing
deriving DecidableEq

/-- An abstract filesystem: which paths are existing files, which are
existing directories, and whether creating the output directory fails
(as when `mkdir` raises). -/
structure Fs where
  files : List String
  dirs : List String
  mkdirFails : Bool

/-- The kind of a path in the abstract filesystem. -/
def Fs.pathKind (fs : Fs) (p : String) : PathKind :=
  if p ∈ fs.files then .file
  else if p ∈ fs.dirs then .directory
  else .missing

/-- Modelled from the spec: the CLI arguments — input file, output
directory, the three conversion options and the verbose flag (§6). -/
structure CliArgs where
  inputFile : String
  outputDir : String
  layerStructure : Bool := true
  physicsScene : Bool := true
  comment : String := ""
  verbose : Bool := false

/-- Whether the input file has the single recognized source-format
extension (the path ends in ".xml"), computed over the character data. -/
def isXmlPath (p : String) : Bool :=
  ".xml".data.isSuffixOf p.data

/-- Warning emitted for a non-existent input path. -/
def msgInputMissing : String := "Input file does not exist"

/-- Warning emitted when the input path is a directory, not a file. -/
def msgInputNotFile : String := "Input path is not a file"

/-- Warning emitted for an input file without the recognized extension. -/
def msgInputNotXml : String := "Only MJCF files (.xml) are supported as input"

/-- Warning emitted when the output path exists but is not a directory. -/
def msgOutputNotDir : String := "Output path exists but is not a directory"

/-- Warning emitted when the output directory cannot be created. -/
def msgMkdirFailed : String := "Failed to create output directory"

/-- Warning emitted when the converter returns no usable artifact. -/
def msgUnknownFailure : String := "Conversion failed for unknown reason"

/-- Warning emitted when the conversion pipeline raises, in non-verbose
mode: it includes the exception's message. -/
def msgConversionFailed (e : String) : String := "Conversion failed: " ++ e

/-- The outcome of the core converter's `convert` call as observed at the
CLI boundary: a resolvable artifact handle, no usable artifact (e.g.
`None`), or a raised exception carrying a message. -/
inductive ConvertOutcome where
  | ok (rootLayerPath : String)
  | noArtifact
  | raised (msg : String)
deriving DecidableEq

/-- The observable result of one CLI `run()`: either an exit code
together with the warnings emitted and the authoritative output files
written, or an exception re-raised to the caller. -/
inductive RunResult where
  | exited (code : Nat) (warnings : List String) (written : List String)
  | raised (exn : String)
deriving DecidableEq

/-- Modelled from the spec: the CLI `run()` entry point (§6, §7).
Input/output validation happens at the caller boundary before the core
runs and is reported as a warning with exit code 1; a completed pipeline
with no usable artifact is a distinct explicitly reported failure; an
exception from the pipeline is logged and swallowed with exit code 1 by
default, and re-raised in verbose mode.  The core's outcome is passed in
as `outcome`, the core being an external collaborator of this wrapper. -/
def run (args : CliArgs) (fs : Fs) (outcome : ConvertOutcome) : RunResult :=
  if fs.pathKind args.inputFile = .missing then .exited 1 [msgInputMissing] []
  else if fs.pathKind args.inputFile = .directory then .exited 1 [msgInputNotFile] []
  else if isXmlPath args.inputFile = false then .exited 1 [msgInputNotXml] []
  else if fs.pathKind args.outputDir = .file then .exited 1 [msgOutputNotDir] []
  else if fs.mkdirFails then .exited 1 [msgMkdirFailed] []
  else
    match outcome with
    | .ok rootLayerPath => .exited 0 [] [rootLayerPath]
    | .noArtifact => .exited 1 [msgUnknownFailure] []
    | .raised e => if args.verbose then .raised e else .exited 1 [msgConversionFailed e] []

/-! ## Benchmark tool: `convert_model`

Embedded from `src/tools/benchmark_menagerie.py`, lines 317-385: the
success decision and error messages after the converter subprocess has
run.  A directory entry carries what the code inspects: `f.is_file()`
and `f.suffix`. -/

/-- One entry of the model output directory, as inspected by
`convert_model`: whether it is a regular file, and its path suffix. -/
structure DirEntry where
  isFile : Bool
  suffix : String
deriving DecidableEq

/-- The fields of `BenchmarkResult` that `convert_model`'s success logic
decides: `success` and `error_message`. -/
structure BenchmarkOutcome where
  success : Bool
  errorMessage : String
deriving DecidableEq

/-- ASCII lowercasing of one character, as Python's `str.lower` acts on
the ASCII suffixes involved here. -/
def lowerChar (c : Char) : Char :=
  if 'A' ≤ c ∧ c ≤ 'Z' then Char.ofNat (c.toNat + 32) else c

/-- Lowercase a string character by character. -/
def lowerStr (s : String) : String :=
  ⟨s.data.map lowerChar⟩

/-- The filter from line 368 of `benchmark_menagerie.py`:
`f.is_file() and f.suffix.lower() == ".usda"`. -/
def isUsdaLayerFile (e : DirEntry) : Bool :=
  e.isFile && (lowerStr e.suffix == ".usda")

/-- Embedded from `convert_model` (`benchmark_menagerie.py:317-385`):
given the subprocess return code, its stderr, the output directory name
and the directory entries, decide `success` and `error_message`.  The
result starts unsuccessful; a non-zero return code records the return
code in the error message; with return code 0, success requires at least
one `.usda` layer file, otherwise a "no USD layer file found" message. -/
def convert_model (returnCode : Int) (stderr : String) (outputDirName : String)
    (entries : List DirEntry) : BenchmarkOutcome :=
  if returnCode ≠ 0 then
    ⟨false, "Conversion failed with return code " ++ toString returnCode
      ++ ". Stderr: " ++ stderr⟩
  else if entries.filter isUsdaLayerFile ≠ [] then
    ⟨true, ""⟩
  else
    ⟨false, "Conversion completed but no USD layer file found in " ++ outputDirName⟩

/-! ## Library invariants (helper lemmas) -/

/-- A fingerprint is a key of the built library iff it was already a key
of the accumulator or is the fingerprint of one of the meshes. -/
theorem buildLibraryFrom_key_mem (ms : List MeshAsset) (acc : List (Fingerprint × MeshPrim))
    (fp : Fingerprint) :
    fp ∈ (buildLibraryFrom acc ms).map Prod.fst ↔
      fp ∈ acc.map Prod.fst ∨ fp ∈ ms.map MeshAsset.fingerprint := by
  induction ms generalizing acc with
  | nil => simp [buildLibraryFrom]
  | cons m rest ih =>
    by_cases h : acc.any (fun e => decide (e.1 = m.fingerprint)) = true
    · rw [buildLibraryFrom, if_pos h, ih]
      have hm : m.fingerprint ∈ acc.map Prod.fst := by
        rcases List.any_eq_true.mp h with ⟨e, he, hpe⟩
        exact List.mem_map.mpr ⟨e, he, by simpa using hpe⟩
      simp only [List.map_cons, List.mem_cons]
      constructor
      · rintro (h' | h')
        · exact Or.inl h'
        · exact Or.inr (Or.inr h')
      · rintro (h' | h' | h')
        · exact Or.inl h'
        · exact Or.inl (by rw [h']; exact hm)
        · exact Or.inr h'
    · rw [buildLibraryFrom, if_neg h, ih]
      simp only [List.map_append, List.map_cons, List.map_nil, List.mem_append,
        List.mem_cons, List.mem_singleton, List.not_mem_nil, or_false]
      tauto

/-- Deduplication invariant: the keys of the built library have no
duplicates. -/
theorem buildLibraryFrom_keys_nodup (ms : List MeshAsset) (acc : List (Fingerprint × MeshPrim))
    (hacc : (acc.map Prod.fst).Nodup) :
    ((buildLibraryFrom acc ms).map Prod.fst).Nodup := by
  induction ms generalizing acc with
  | nil => simpa [buildLibraryFrom] using hacc
  | cons m rest ih =>
    by_cases h : acc.any (fun e => decide (e.1 = m.fingerprint)) = true
    · rw [buildLibraryFrom, if_pos h]
      exact ih _ hacc
    · rw [buildLibraryFrom, if_neg h]
      apply ih
      have hnotin : m.fingerprint ∉ acc.map Prod.fst := by
        intro hmem
        rcases List.mem_map.mp hmem with ⟨e, he, hfe⟩
        exact h (List.any_eq_true.mpr ⟨e, he, by simp [hfe]⟩)
      simp only [List.map_append, List.map_cons, List.map_nil]
      exact List.Nodup.append hacc (List.nodup_singleton _)
        (by simpa [List.disjoint_singleton] using hnotin)

/-- Every entry of the built library comes from the accumulator or was
authored, via `authorMeshPrim`, from one of the meshes. -/
theorem buildLibraryFrom_entry_mem (ms : List MeshAsset) (acc : List (Fingerprint × MeshPrim))
    (e : Fingerprint × MeshPrim) (he : e ∈ buildLibraryFrom acc ms) :
    e ∈ acc ∨ ∃ m ∈ ms, e = (m.fingerprint, authorMeshPrim m) := by
  induction ms generalizing acc with
  | nil =>
    left
    simpa [buildLibraryFrom] using he
  | cons m rest ih =>
    rw [buildLibraryFrom] at he
    by_cases h : acc.any (fun e => decide (e.1 = m.fingerprint)) = true
    · rw [if_pos h] at he
      rcases ih _ he with h' | ⟨m', hm', rfl⟩
      · exact Or.inl h'
      · exact Or.inr ⟨m', List.mem_cons_of_mem _ hm', rfl⟩
    · rw [if_neg h] at he
      rcases ih _ he with h' | ⟨m', hm', rfl⟩
      · rcases List.mem_append.mp h' with h'' | h''
        · exact Or.inl h''
        · exact Or.inr ⟨m, List.mem_cons_self _ _, by simpa using h''⟩
      · exact Or.inr ⟨m', List.mem_cons_of_mem _ hm', rfl⟩

/-- In a duplicate-free list, a member's match count is exactly one. -/
theorem countP_eq_one_of_nodup_mem {l : List Fingerprint} {fp : Fingerprint}
    (h : l.Nodup) (hm : fp ∈ l) :
    l.countP (fun k => decide (k = fp)) = 1 := by
  induction l with
  | nil => cases hm
  | cons a t ih =>
    rcases List.mem_cons.mp hm with rfl | hm'
    · have hnot : fp ∉ t := (List.nodup_cons.mp h).1
      have ht : t.countP (fun k => decide (k = fp)) = 0 :=
        List.countP_eq_zero.mpr (fun k hk => by
          simp only [decide_eq_true_eq]
          rintro rfl
          exact hnot hk)
      simp [List.countP_cons, ht]
    · have ha : ¬(a = fp) := by
        rintro rfl
        exact (List.nodup_cons.mp h).1 hm'
      simp [List.countP_cons, ih (List.nodup_cons.mp h).2 hm', ha]

/-- The library built from a model's mesh assets holds exactly one entry
per fingerprint actually referenced by the model. -/
theorem library_count_one (model : Model) (fp : Fingerprint)
    (h : fp ∈ model.meshAssets.map MeshAsset.fingerprint) :
    (buildLibrary model.meshAssets).countP (fun e => decide (e.1 = fp)) = 1 := by
  have hkeys : ((buildLibrary model.meshAssets).map Prod.fst).Nodup :=
    buildLibraryFrom_keys_nodup _ [] (by simp)
  have hmem : fp ∈ (buildLibrary model.meshAssets).map Prod.fst :=
    (buildLibraryFrom_key_mem _ [] fp).mpr (Or.inr h)
  have := countP_eq_one_of_nodup_mem hkeys hmem
  rwa [List.countP_map] at this

/-! ## Naming invariants (helper lemmas) -/

/-- Any name assigned after the siblings `prev` carries a suffix at least
as large as the number of `prev` siblings sharing its base. -/
theorem assignNamesFrom_suffix_ge (gs : List Geom) (prev : List Geom) (nm : NodeName)
    (h : nm ∈ assignNamesFrom prev gs) :
    prev.countP (fun p => p.baseName == nm.base) ≤ nm.suffix := by
  induction gs generalizing prev with
  | nil => simp [assignNamesFrom] at h
  | cons g rest ih =>
    rw [assignNamesFrom] at h
    rcases List.mem_cons.mp h with rfl | h'
    · simp [assignedName]
    · have step := ih (prev ++ [g]) h'
      have mono : prev.countP (fun p => p.baseName == nm.base)
          ≤ (prev ++ [g]).countP (fun p => p.baseName == nm.base) := by
        rw [List.countP_append]
        omega
      exact le_trans mono step

/-- The names assigned to one body's geom children are pairwise
distinct: collisions on a base name are told apart by the numeric
suffix. -/
theorem assignNamesFrom_nodup (gs : List Geom) (prev : List Geom) :
    (assignNamesFrom prev gs).Nodup := by
  induction gs generalizing prev with
  | nil => simp [assignNamesFrom]
  | cons g rest ih =>
    rw [assignNamesFrom]
    refine List.nodup_cons.mpr ⟨?_, ih _⟩
    intro hmem
    have hge := assignNamesFrom_suffix_ge rest (prev ++ [g]) _ hmem
    simp only [assignedName, List.countP_append] at hge
    have hone : List.countP (fun p => p.baseName == g.baseName) [g] = 1 := by
      simp [List.countP_cons]
    omega

/-! ## Concrete fixtures

Small models mirroring the test fixtures `tests/data/meshes.xml` with its
`box.stl` and `box.obj` sample meshes: identical box geometry loaded from
two different source files, referenced from two different bodies. -/

/-- The sample triangulated box mesh loaded from an STL file: authored
normals with their own index array, no UVs. -/
def boxStl : MeshAsset where
  meshName := "box"
  sourceFile := "meshes/box.stl"
  points := [(0, 0, 0), (2, 0, 0), (0, 2, 0), (0, 0, 2)]
  faceVertexCounts := [3, 3]
  faceVertexIndices := [0, 1, 2, 0, 1, 3]
  normals := some ([(0, 0, 1), (0, -1, 0)], [0, 0, 0, 1, 1, 1])
  uvs := none

/-- The same box geometry loaded from an OBJ file: identical canonical
geometry data except that it also carries UVs, from a different source
file. -/
def boxObj : MeshAsset :=
  { boxStl with sourceFile := "meshes/box.obj" }

/-- A second asset with geometry identical to `boxStl` but from another
source file: same fingerprint, different provenance. -/
def boxStlCopy : MeshAsset :=
  { boxStl with sourceFile := "other/box_duplicate.stl" }

/-- A box mesh with normals and UVs, as loaded from the sample OBJ. -/
def boxObjUv : MeshAsset :=
  { boxStl with
    sourceFile := "meshes/box_uv.obj"
    uvs := some ([(0, 0), (1, 0), (0, 1)], [0, 1, 2, 0, 1, 2]) }

/-- A model in which two different bodies reference geometrically
identical mesh data coming from two different source files. -/
def dedupModel : Model where
  modelName := "meshes"
  physics := { gravity := (0, 0, -981), timestep := 2 }
  worldBody :=
    .mk "world" []
      (.cons (.mk "body1" [⟨some "StlBox", .mesh boxStl⟩]
        (.cons (.mk "body2" [⟨some "ObjBox", .mesh boxStlCopy⟩, ⟨none, .mesh boxObj⟩] .nil)
          .nil))
        .nil)

/-- A model with an unnamed box primitive geom under a nested body. -/
def nestedBoxModel : Model where
  modelName := "nested"
  physics := { gravity := (0, 0, -981), timestep := 2 }
  worldBody :=
    .mk "world" []
      (.cons (.mk "b1" []
        (.cons (.mk "b2" [⟨none, .primitive .box [1, 1, 1]⟩] .nil) .nil))
        .nil)

/-! ## Claim theorems -/

/-- C1: every geom resolving to a mesh asset converts to a per-instance
node attached to the deduplicated geometry library by a reference arc —
the instance has a non-empty references list (exactly one arc, aimed at
the entry for the mesh's fingerprint) and no copied geometry data — and
each referenced fingerprint has exactly one authored library entry, with
one reference arc per referencing geom. -/
theorem mesh_reference_dedup (model : Model) (opts : ConversionOptions) :
    (∀ inst ∈ (Converter.convert model opts).meshInstances,
        inst.localMesh = none ∧ inst.references ≠ [] ∧
        ∃ fp, inst.references = [fp] ∧
          (Converter.convert model opts).library.countP (fun e => decide (e.1 = fp)) = 1) ∧
    (∀ fp ∈ model.meshAssets.map MeshAsset.fingerprint,
        (Converter.convert model opts).library.countP (fun e => decide (e.1 = fp)) = 1) ∧
    (∀ fp : Fingerprint,
        (Converter.convert model opts).meshInstances.countP
            (fun inst => decide (inst.references = [fp]))
          = model.meshAssets.countP (fun m => decide (m.fingerprint = fp))) := by
  refine ⟨?_, ?_, ?_⟩
  · intro inst hinst
    simp only [Converter.convert, List.mem_map] at hinst
    rcases hinst with ⟨pm, hpm, rfl⟩
    refine ⟨rfl, by simp, pm.2.fingerprint, rfl, ?_⟩
    have hmem : pm.2.fingerprint ∈ model.meshAssets.map MeshAsset.fingerprint :=
      List.mem_map.mpr ⟨pm.2, List.mem_map.mpr ⟨pm, hpm, rfl⟩, rfl⟩
    simpa only [Converter.convert] using library_count_one model pm.2.fingerprint hmem
  · intro fp hfp
    simpa only [Converter.convert] using library_count_one model fp hfp
  · intro fp
    simp only [Converter.convert, Model.meshAssets, List.countP_map]
    apply List.countP_congr
    intro pm _
    simp [List.cons.injEq]

/-- C2: every library mesh prim is authored from one of the model's mesh
assets; a mesh from a triangulated source with authored normals gets
authored points, face-vertex-counts and face-vertex-indices attributes,
no authored plain normals attribute, its normals only as an indexed
primvar carrying the source's own index array, and, when the source also
has UVs, a UV primvar with its own index array. -/
theorem mesh_fidelity (model : Model) (opts : ConversionOptions) :
    (∀ e ∈ (Converter.convert model opts).library,
        ∃ m ∈ model.meshAssets, e.1 = m.fingerprint ∧ e.2 = authorMeshPrim m) ∧
    (∀ (m : MeshAsset) (nv : List Vec3 × List Nat),
        m.faceVertexCounts.all (fun c => decide (c = 3)) = true →
        m.normals = some nv →
        (authorMeshPrim m).points = some m.points ∧
        (authorMeshPrim m).faceVertexCounts = some m.faceVertexCounts ∧
        (authorMeshPrim m).faceVertexIndices = some m.faceVertexIndices ∧
        (authorMeshPrim m).normalsAttr = none ∧
        (authorMeshPrim m).normalsPrimvar = some ⟨nv.1, nv.2⟩ ∧
        (∀ uv, m.uvs = some uv → (authorMeshPrim m).uvPrimvar = some ⟨uv.1, uv.2⟩)) := by
  constructor
  · intro e he
    simp only [Converter.convert] at he
    rcases buildLibraryFrom_entry_mem _ _ _ he with h | ⟨m, hm, rfl⟩
    · simp at h
    · exact ⟨m, hm, rfl, rfl⟩
  · intro m nv _ hn
    refine ⟨rfl, rfl, rfl, rfl, ?_, ?_⟩
    · simp [authorMeshPrim, hn]
    · intro uv huv
      simp [authorMeshPrim, huv]

/-- Witness for C1 at the dedup fixture: two bodies reference identical
mesh data from `meshes/box.stl` and `other/box_duplicate.stl` plus a
third reference from `meshes/box.obj`; the library carries exactly one
entry for that fingerprint and there is one reference arc per
referencing geom. -/
theorem mesh_reference_dedup_witness :
    (Converter.convert dedupModel {}).library.countP
        (fun e => decide (e.1 = boxStl.fingerprint)) = 1 ∧
    (Converter.convert dedupModel {}).meshInstances.countP
        (fun inst => decide (inst.references = [boxStl.fingerprint])) = 3 := by
  constructor
  · exact (mesh_reference_dedup dedupModel {}).2.1 boxStl.fingerprint (by decide)
  · rw [(mesh_reference_dedup dedupModel {}).2.2 boxStl.fingerprint]
    decide

/-- Witness for C2 at the sample OBJ box with normals and UVs. -/
theorem mesh_fidelity_witness :
    (authorMeshPrim boxObjUv).points = some boxObjUv.points ∧
    (authorMeshPrim boxObjUv).normalsAttr = none ∧
    (authorMeshPrim boxObjUv).normalsPrimvar
        = some ⟨[(0, 0, 1), (0, -1, 0)], [0, 0, 0, 1, 1, 1]⟩ ∧
    (authorMeshPrim boxObjUv).uvPrimvar
        = some ⟨[(0, 0), (1, 0), (0, 1)], [0, 1, 2, 0, 1, 2]⟩ := by
  have h := (mesh_fidelity dedupModel {}).2 boxObjUv
    ([(0, 0, 1), (0, -1, 0)], [0, 0, 0, 1, 1, 1]) (by decide) (by decide)
  exact ⟨h.1, h.2.2.2.1, h.2.2.2.2.1,
    h.2.2.2.2.2 ([(0, 0), (1, 0), (0, 1)], [0, 1, 2, 0, 1, 2]) (by decide)⟩

/-- C3: with layer structure disabled the output is a single binary
`<model>.usdc` root layer — no readable `.usda` layer, nothing in a
subdirectory; with it enabled (the default) the root layer is the
readable `<model>.usda` and a subdirectory holds the payload and
geometry-library layers. -/
theorem layer_structure_toggle (model : Model) (opts : ConversionOptions) :
    (opts.layerStructure = false →
        (Converter.convert model opts).layers
            = [⟨none, model.modelName, .usdc, .root⟩] ∧
        (Converter.convert model opts).rootLayer
            = some ⟨none, model.modelName, .usdc, .root⟩ ∧
        (∀ l ∈ (Converter.convert model opts).layers,
            l.format ≠ .usda ∧ l.subdir = none)) ∧
    (opts.layerStructure = true →
        (Converter.convert model opts).rootLayer
            = some ⟨none, model.modelName, .usda, .root⟩ ∧
        (∃ pl ∈ (Converter.convert model opts).layers,
            pl.role = .payload ∧ pl.subdir = some "Payload") ∧
        (∃ gl ∈ (Converter.convert model opts).layers,
            gl.role = .geomLibrary ∧ gl.subdir = some "Payload")) := by
  constructor
  · intro h
    refine ⟨?_, ?_, ?_⟩
    · simp [Converter.convert, composeLayers, h]
    · simp [Converter.convert, ConvertedAsset.rootLayer, composeLayers, h]
    · intro l hl
      simp only [Converter.convert, composeLayers, h, if_false, Bool.false_eq_true,
        List.mem_singleton] at hl
      subst hl
      exact ⟨by simp, rfl⟩
  · intro h
    refine ⟨?_, ?_, ?_⟩
    · simp [Converter.convert, ConvertedAsset.rootLayer, composeLayers, h]
    · exact ⟨⟨some "Payload", model.modelName, .usdc, .payload⟩,
        by simp [Converter.convert, composeLayers, h], rfl, rfl⟩
    · exact ⟨⟨some "Payload", model.modelName ++ "_Geometry", .usdc, .geomLibrary⟩,
        by simp [Converter.convert, composeLayers, h], rfl, rfl⟩

/-- Witness for C3: both toggle states at a concrete model. -/
theorem layer_structure_toggle_witness :
    (Converter.convert nestedBoxModel { layerStructure := false }).layers
        = [⟨none, "nested", .usdc, .root⟩] ∧
    (Converter.convert nestedBoxModel {}).rootLayer
        = some ⟨none, "nested", .usda, .root⟩ := by
  exact ⟨((layer_structure_toggle nestedBoxModel { layerStructure := false }).1 rfl).1,
    ((layer_structure_toggle nestedBoxModel {}).2 rfl).1⟩

/-- C4: with physics-scene authoring disabled the converted stage has no
valid physics-scene node (in particular none at `/PhysicsScene`); by
default exactly one physics-scene node is authored, at `/PhysicsScene`,
carrying the model's global physics settings. -/
theorem physics_scene_toggle (model : Model) (opts : ConversionOptions) :
    (opts.physicsScene = false →
        (Converter.convert model opts).physicsScenes = [] ∧
        (Converter.convert model opts).physicsSceneAt ["PhysicsScene"] = false) ∧
    (opts.physicsScene = true →
        (Converter.convert model opts).physicsScenes
            = [⟨["PhysicsScene"], model.physics.gravity, model.physics.timestep⟩] ∧
        (Converter.convert model opts).physicsScenes.length = 1 ∧
        (Converter.convert model opts).physicsSceneAt ["PhysicsScene"] = true) := by
  constructor
  · intro h
    constructor
    · simp [Converter.convert, h]
    · simp [Converter.convert, ConvertedAsset.physicsSceneAt, h]
  · intro h
    refine ⟨?_, ?_, ?_⟩
    · simp [Converter.convert, h]
    · simp [Converter.convert, h]
    · simp [Converter.convert, ConvertedAsset.physicsSceneAt, h]

/-- Witness for C4: both toggle states at a concrete model. -/
theorem physics_scene_toggle_witness :
    (Converter.convert nestedBoxModel { physicsScene := false }).physicsScenes = [] ∧
    (Converter.convert nestedBoxModel {}).physicsScenes
        = [⟨["PhysicsScene"], (0, 0, -981), 2⟩] := by
  exact ⟨((physics_scene_toggle nestedBoxModel { physicsScene := false }).1 rfl).1,
    ((physics_scene_toggle nestedBoxModel {}).2 rfl).1⟩

/-- C5: a non-empty comment option is written verbatim as the root
layer's comment metadata. -/
theorem comment_propagation (model : Model) (opts : ConversionOptions)
    (_h : opts.comment ≠ "") :
    (Converter.convert model opts).rootComment = opts.comment := by
  simp [Converter.convert]

/-- Witness for C5 at the comment used by the unit tests. -/
theorem comment_propagation_witness :
    (Converter.convert nestedBoxModel { comment := "from the unittests" }).rootComment
      = "from the unittests" :=
  comment_propagation nestedBoxModel { comment := "from the unittests" } (by decide)

/-- C6: a geom with no explicit name gets a node name deterministically
derived from its shape; an unnamed box whose base collides with no
earlier sibling is literally named "box" (so also under a nested body,
as the concrete conversion shows); name collisions among one body's
children are told apart by the numeric suffix, making all assigned
names distinct. -/
theorem unnamed_geom_naming :
    (∀ (prev : List Geom) (g : Geom), g.name = none →
        (assignedName prev g).base = g.shape.baseName) ∧
    (∀ (prev : List Geom) (size : List Int),
        prev.countP (fun p => p.baseName == "box") = 0 →
        (assignedName prev ⟨none, .primitive .box size⟩).render = "box") ∧
    (∀ gs : List Geom, (assignNames gs).Nodup) ∧
    ((Converter.convert nestedBoxModel {}).primitivePrims.map PrimitivePrim.path
        = [["nested", "Geometry", "b1", "b2", "box"]]) ∧
    (assignNames [⟨none, .primitive .box []⟩, ⟨none, .primitive .box []⟩]
        = [⟨"box", 0⟩, ⟨"box", 1⟩] ∧
      NodeName.render ⟨"box", 0⟩ = "box" ∧ NodeName.render ⟨"box", 1⟩ = "box_1") := by
  refine ⟨?_, ?_, ?_, by decide, by decide⟩
  · intro prev g h
    simp [assignedName, Geom.baseName, h]
  · intro prev size h
    show NodeName.render ⟨"box", prev.countP (fun p => p.baseName == "box")⟩ = "box"
    rw [h]
    rfl
  · intro gs
    exact assignNamesFrom_nodup gs []

/-- Witness for C6: an unnamed box geom with no colliding sibling is
named after its shape, literally "box". -/
theorem unnamed_geom_naming_witness :
    (assignedName [] ⟨none, .primitive .box [1, 1, 1]⟩).base
        = (GeomShape.primitive .box [1, 1, 1]).baseName ∧
    (assignedName [] ⟨none, .primitive .box [1, 1, 1]⟩).render = "box" :=
  ⟨unnamed_geom_naming.1 [] ⟨none, .primitive .box [1, 1, 1]⟩ rfl,
    unnamed_geom_naming.2.1 [] [1, 1, 1] (by decide)⟩

/-- C7: each of the four input/output validation failures — missing
input, input path a directory, input without the recognized extension,
output directory that cannot be created — exits with code 1 and its own
specific warning (the four messages are pairwise distinct), writing no
authoritative output. -/
theorem cli_validation_failures (args : CliArgs) (fs : Fs) (outcome : ConvertOutcome) :
    (fs.pathKind args.inputFile = .missing →
        run args fs outcome = .exited 1 [msgInputMissing] []) ∧
    (fs.pathKind args.inputFile = .directory →
        run args fs outcome = .exited 1 [msgInputNotFile] []) ∧
    (fs.pathKind args.inputFile = .file → isXmlPath args.inputFile = false →
        run args fs outcome = .exited 1 [msgInputNotXml] []) ∧
    (fs.pathKind args.inputFile = .file → isXmlPath args.inputFile = true →
        fs.pathKind args.outputDir ≠ .file → fs.mkdirFails = true →
        run args fs outcome = .exited 1 [msgMkdirFailed] []) ∧
    [msgInputMissing, msgInputNotFile, msgInputNotXml, msgMkdirFailed].Nodup := by
  refine ⟨?_, ?_, ?_, ?_, by decide⟩
  · intro h
    simp [run, h]
  · intro h
    simp [run, h]
  · intro h1 h2
    simp [run, h1, h2]
  · intro h1 h2 h3 h4
    simp [run, h1, h2, h3, h4]

/-- Witness for C7: the four failure modes at concrete inputs, mirroring
the CLI tests. -/
theorem cli_validation_failures_witness :
    run { inputFile := "tests/data/invalid.xml", outputDir := "out" }
        { files := [], dirs := ["out"], mkdirFails := false } (.ok "x")
      = .exited 1 [msgInputMissing] [] ∧
    run { inputFile := "tests/data/input_dir", outputDir := "out" }
        { files := [], dirs := ["tests/data/input_dir", "out"], mkdirFails := false } (.ok "x")
      = .exited 1 [msgInputNotFile] [] ∧
    run { inputFile := "tests/data/not_xml.txt", outputDir := "out" }
        { files := ["tests/data/not_xml.txt"], dirs := ["out"], mkdirFails := false } (.ok "x")
      = .exited 1 [msgInputNotXml] [] ∧
    run { inputFile := "tests/data/worldgeom.xml", outputDir := "tests/output/cannot_create" }
        { files := ["tests/data/worldgeom.xml"], dirs := [], mkdirFails := true } (.ok "x")
      = .exited 1 [msgMkdirFailed] [] :=
  ⟨(cli_validation_failures _ _ _).1 (by decide),
    (cli_validation_failures _ _ _).2.1 (by decide),
    (cli_validation_failures _ _ _).2.2.1 (by decide) (by decide),
    (cli_validation_failures _ _ _).2.2.2.1 (by decide) (by decide) (by decide) (by decide)⟩

/-- C8 counterexample: when the converter completes but returns no
usable artifact, the CLI run at a concrete valid input emits the warning
"Conversion failed for unknown reason" (capitalized, as the test
`test_conversion_returns_none` requires), which is not the string
"conversion failed for unknown reason" stated by the claim. -/
theorem unknown_failure_message_mismatch :
    run { inputFile := "tests/data/worldgeom.xml", outputDir := "out" }
        { files := ["tests/data/worldgeom.xml"], dirs := ["out"], mkdirFails := false }
        .noArtifact
      = .exited 1 ["Conversion failed for unknown reason"] [] ∧
    "Conversion failed for unknown reason" ≠ "conversion failed for unknown reason" := by
  decide

/-- C8 (amended): a pipeline run that completes without raising but
yields no usable artifact is a distinct, explicitly reported failure:
the CLI emits the warning "Conversion failed for unknown reason" and
exits with code 1. -/
theorem unknown_failure_reported (args : CliArgs) (fs : Fs)
    (h1 : fs.pathKind args.inputFile = .file) (h2 : isXmlPath args.inputFile = true)
    (h3 : fs.pathKind args.outputDir ≠ .file) (h4 : fs.mkdirFails = false) :
    run args fs .noArtifact = .exited 1 [msgUnknownFailure] [] ∧
    msgUnknownFailure = "Conversion failed for unknown reason" := by
  constructor
  · simp [run, h1, h2, h3, h4]
  · rfl

/-- Witness for C8 (amended) at a concrete valid input. -/
theorem unknown_failure_reported_witness :
    run { inputFile := "m.xml", outputDir := "o" }
        { files := ["m.xml"], dirs := ["o"], mkdirFails := false } .noArtifact
      = .exited 1 [msgUnknownFailure] [] :=
  (unknown_failure_reported { inputFile := "m.xml", outputDir := "o" }
    { files := ["m.xml"], dirs := ["o"], mkdirFails := false }
    (by decide) (by decide) (by decide) (by decide)).1

/-- C9: an exception raised inside the conversion pipeline is, in
default (non-verbose) mode, logged as a warning that includes the
exception's message, with exit code 1 and no re-raise; in verbose mode
the same exception is re-raised to the caller. -/
theorem pipeline_exception_handling (args : CliArgs) (fs : Fs) (e : String)
    (h1 : fs.pathKind args.inputFile = .file) (h2 : isXmlPath args.inputFile = true)
    (h3 : fs.pathKind args.outputDir ≠ .file) (h4 : fs.mkdirFails = false) :
    (args.verbose = false →
        run args fs (.raised e) = .exited 1 [msgConversionFailed e] []) ∧
    (args.verbose = true → run args fs (.raised e) = .raised e) ∧
    msgConversionFailed e = "Conversion failed: " ++ e := by
  refine ⟨?_, ?_, rfl⟩
  · intro hv
    simp [run, h1, h2, h3, h4, hv]
  · intro hv
    simp [run, h1, h2, h3, h4, hv]

/-- Witness for C9: both modes at a concrete input with the exception
message used by the CLI tests. -/
theorem pipeline_exception_handling_witness :
    run { inputFile := "m.xml", outputDir := "o" }
        { files := ["m.xml"], dirs := ["o"], mkdirFails := false }
        (.raised "Test conversion error")
      = .exited 1 [msgConversionFailed "Test conversion error"] [] ∧
    run { inputFile := "m.xml", outputDir := "o", verbose := true }
        { files := ["m.xml"], dirs := ["o"], mkdirFails := false }
        (.raised "Test conversion error")
      = .raised "Test conversion error" :=
  ⟨(pipeline_exception_handling { inputFile := "m.xml", outputDir := "o" }
      { files := ["m.xml"], dirs := ["o"], mkdirFails := false } "Test conversion error"
      (by decide) (by decide) (by decide) (by decide)).1 rfl,
    (pipeline_exception_handling { inputFile := "m.xml", outputDir := "o", verbose := true }
      { files := ["m.xml"], dirs := ["o"], mkdirFails := false } "Test conversion error"
      (by decide) (by decide) (by decide) (by decide)).2.1 rfl⟩

/-- C10: the benchmark's `convert_model` marks a result successful iff
the converter subprocess exited with return code 0 and the model's
output directory holds at least one regular file whose lowercased suffix
is ".usda"; a non-zero return code leaves the result unsuccessful with an
error message recording that return code, and return code 0 without any
such layer file leaves it unsuccessful with the "no USD layer file
found" message. -/
theorem convert_model_success_criteria (rc : Int) (stderr dir : String)
    (entries : List DirEntry) :
    ((convert_model rc stderr dir entries).success = true ↔
        rc = 0 ∧ ∃ e ∈ entries, e.isFile = true ∧ lowerStr e.suffix = ".usda") ∧
    (rc ≠ 0 → convert_model rc stderr dir entries
        = ⟨false, "Conversion failed with return code " ++ toString rc
            ++ ". Stderr: " ++ stderr⟩) ∧
    (rc = 0 → (∀ e ∈ entries, isUsdaLayerFile e = false) →
        convert_model rc stderr dir entries
        = ⟨false, "Conversion completed but no USD layer file found in " ++ dir⟩) := by
  refine ⟨?_, ?_, ?_⟩
  · constructor
    · intro h
      unfold convert_model at h
      split_ifs at h with h1 h2
      refine ⟨Decidable.of_not_not h1, ?_⟩
      obtain ⟨e, he⟩ := List.exists_mem_of_ne_nil _ h2
      refine ⟨e, (List.mem_filter.mp he).1, ?_⟩
      have hp := (List.mem_filter.mp he).2
      simpa [isUsdaLayerFile, Bool.and_eq_true, beq_iff_eq] using hp
    · rintro ⟨rfl, e, he, hf, hs⟩
      unfold convert_model
      rw [if_neg (by simp), if_pos]
      exact List.ne_nil_of_mem
        (List.mem_filter.mpr ⟨he, by simp [isUsdaLayerFile, hf, hs]⟩)
  · intro h
    unfold convert_model
    rw [if_pos h]
  · intro h0 hall
    unfold convert_model
    rw [if_neg (by simp [h0]), if_neg]
    apply not_not_intro
    apply List.filter_eq_nil_iff.mpr
    intro e he
    simp [hall e he]

/-- Witness for C10: return code 0 with an uppercase-suffixed layer file
succeeds; return code 2 records the code in the error message. -/
theorem convert_model_success_criteria_witness :
    (convert_model 0 "" "benchmarks/usd_menagerie/demo" [⟨true, ".USDA"⟩]).success = true ∧
    convert_model 2 "boom" "benchmarks/usd_menagerie/demo" []
      = ⟨false, "Conversion failed with return code 2. Stderr: boom"⟩ :=
  ⟨(convert_model_success_criteria 0 "" "benchmarks/usd_menagerie/demo"
      [⟨true, ".USDA"⟩]).1.mpr ⟨rfl, ⟨true, ".USDA"⟩, by decide, rfl, by decide⟩,
    (convert_model_success_criteria 2 "boom" "benchmarks/usd_menagerie/demo" []).2.1
      (by decide)⟩
